import Mathlib

/-!
Verification development for the `vite-minify-static-plugin` repository.

The repository contains two near-identical drafts of one Vite plugin module:
* `src/index.ts` — the esbuild draft (`transformSync`-based), and
* the terser draft (`minify`-based) shipped alongside the README.

Both drafts share the framework detector, the default-source-directory table,
the bundle filter and the shape of the `writeBundle` hook; they differ in the
transformer, in the option-merging of the transformer options, and in the
destination-replacement step.  This file gives a shallow embedding of both
drafts: pure functions are translated directly, the Node filesystem is
modelled as a finite map from segment-list paths to entries, fallible
filesystem calls return `Except`, and the external collaborators (fast-glob,
terser's `minify`, esbuild's `transformSync`) are abstracted as oracle
parameters whose outcomes are `Except`-valued.
-/

/-- The four concrete framework identifiers the detector can return
(`'sveltekit' | 'react' | 'vue' | 'vanilla'` in `detectFramework`). -/
inductive Framework
  | sveltekit
  | react
  | vue
  | vanilla
deriving DecidableEq

/-- The user-facing framework option, which additionally admits `'auto'`
(the `framework?: 'sveltekit' | 'react' | 'vue' | 'vanilla' | 'auto'` field
of `MinifyStaticOptions`). -/
inductive UserFramework
  | concrete (f : Framework)
  | auto
deriving DecidableEq

/-- The project manifest (`package.json`) as the detector sees it: the names
of the declared runtime and development dependencies whose entries are
present (with truthy version strings).  `detectFramework` only performs
key-presence checks on the spread-merge of the two maps. -/
structure Manifest where
  dependencies : List String
  devDependencies : List String
deriving DecidableEq

/-- Key presence in `const deps = { ...packageJson.dependencies,
...packageJson.devDependencies }`: a key is present in the merged object iff
it is present in either map. -/
def Manifest.hasDep (m : Manifest) (key : String) : Bool :=
  m.dependencies.contains key || m.devDependencies.contains key

/-- `detectFramework` from both drafts.  The `Option Manifest` argument
models the `try { JSON.parse(readFileSync('package.json')) } catch`:
`none` is a manifest that cannot be located or parsed, handled by the
`catch` branch returning `'vanilla'`. -/
def detectFramework : Option Manifest → Framework
  | none => .vanilla
  | some m =>
    if m.hasDep "@sveltejs/kit" then .sveltekit
    else if m.hasDep "react" || m.hasDep "@vitejs/plugin-react" then .react
    else if m.hasDep "vue" || m.hasDep "@vitejs/plugin-vue" then .vue
    else .vanilla

/-- The framework-resolution expression at the top of `minifyStatic` (both
drafts, identical text):
`userOptions.framework === 'auto' ? detectFramework() : userOptions.framework || 'vanilla'`.
`none` models an absent `framework` key, in which case the
`userOptions.framework || 'vanilla'` branch yields `'vanilla'`. -/
def resolveFramework (userFramework : Option UserFramework) (manifest : Option Manifest) :
    UserFramework :=
  match userFramework with
  | some .auto => .concrete (detectFramework manifest)
  | some fw => fw
  | none => .concrete .vanilla

/-- `getDefaultSourceDir` from both drafts: `'static'` for `'sveltekit'`,
`'public'` for every other case (including the `default` switch branch). -/
def getDefaultSourceDir (framework : UserFramework) : String :=
  match framework with
  | .concrete .sveltekit => "static"
  | _ => "public"

/-- JavaScript's `String.prototype.includes`: substring containment,
expressed through `List.IsInfix` on the character lists. -/
def strIncludes (hay needle : String) : Bool :=
  decide (needle.toList <:+: hay.toList)

/-- The build output descriptor the host bundler passes to `writeBundle`;
only its `dir` field is consulted (`bundleOptions.dir`), which may be
absent. -/
structure BundleOptions where
  dir : Option String
deriving DecidableEq

/-- `shouldProcessBundle` from both drafts: `const dir = bundleOptions.dir
|| ''`; the `'sveltekit'` switch case requires the client marker, every
other case (react/vue/vanilla and the `default` branch) rejects server and
ssr markers. -/
def shouldProcessBundle (bundleOptions : BundleOptions) (framework : UserFramework) : Bool :=
  let dir := bundleOptions.dir.getD ""
  match framework with
  | .concrete .sveltekit => strIncludes dir "client"
  | _ => !(strIncludes dir "server") && !(strIncludes dir "ssr")

/-- An opaque transformer-option value: the drafts only ever pass boolean
flags or flat objects of boolean flags (e.g. `format: { comments: false }`),
so values are modelled as booleans or boolean-flag objects. -/
inductive TerserValue
  | bool (b : Bool)
  | object (fields : List (String × Bool))
deriving DecidableEq

/-- The `terserOptions` bag of the terser draft (`compress?`, `mangle?`,
`format?`, `sourcemap?`), each key optional (`none` = key absent). -/
structure TerserOptionsUser where
  compress : Option TerserValue := none
  mangle : Option TerserValue := none
  format : Option TerserValue := none
  sourcemap : Option TerserValue := none
deriving DecidableEq

/-- `defaultOptions.terserOptions` of the terser draft:
`{ compress: true, mangle: true, format: { comments: false } }`. -/
def defaultTerserOptions : TerserOptionsUser :=
  { compress := some (.bool true)
    mangle := some (.bool true)
    format := some (.object [("comments", false)])
    sourcemap := none }

/-- One key of a JavaScript object spread `{ ...d, ...u }`: the key of `u`
wins when present, otherwise the key of `d` survives. -/
def mergeKey (dv uv : Option TerserValue) : Option TerserValue :=
  match uv with
  | some v => some v
  | none => dv

/-- The terser draft's deep merge
`{ ...defaultOptions.terserOptions, ...userOptions.terserOptions }`. -/
def mergeTerserOptions (d u : TerserOptionsUser) : TerserOptionsUser :=
  { compress := mergeKey d.compress u.compress
    mangle := mergeKey d.mangle u.mangle
    format := mergeKey d.format u.format
    sourcemap := mergeKey d.sourcemap u.sourcemap }

/-- User options of the terser draft (`MinifyStaticOptions` with
`terserOptions`); every field optional. -/
structure MinifyStaticOptionsT where
  sourceDir : Option String := none
  files : Option (List String) := none
  terserOptions : Option TerserOptionsUser := none
  verbose : Option Bool := none
  outputDir : Option String := none
  framework : Option UserFramework := none
deriving DecidableEq

/-- The effective configuration of the terser draft (the `options` object
built in `minifyStatic`). -/
structure EffectiveConfigT where
  sourceDir : String
  files : List String
  terserOptions : TerserOptionsUser
  verbose : Bool
  outputDir : Option String
  framework : UserFramework
deriving DecidableEq

/-- `defaultOptions.files` (both drafts). -/
def defaultFiles : List String := ["**/*.js", "**/*.mjs"]

/-- The terser draft's `options` object:
`{ ...defaultOptions, sourceDir: userOptions.sourceDir || getDefaultSourceDir(detectedFramework),
...userOptions, terserOptions: { ...defaultOptions.terserOptions, ...userOptions.terserOptions },
framework: detectedFramework }`.
Spread semantics, later keys win: the explicit `sourceDir` key is itself
overridden by the `...userOptions` spread whenever the user supplied a
`sourceDir` key, so the user's literal value (even `''`) survives; the
`terserOptions` and `framework` keys come after the user spread and always
hold the merged bag and the resolved framework.  `...undefined` is a
no-op, modelled by `Option.getD` with an empty bag. -/
def resolveConfigT (user : MinifyStaticOptionsT) (manifest : Option Manifest) :
    EffectiveConfigT :=
  let detectedFramework := resolveFramework user.framework manifest
  { sourceDir :=
      match user.sourceDir with
      | some s => s
      | none => getDefaultSourceDir detectedFramework
    files := user.files.getD defaultFiles
    terserOptions := mergeTerserOptions defaultTerserOptions (user.terserOptions.getD {})
    verbose := user.verbose.getD false
    outputDir := user.outputDir
    framework := detectedFramework }

/-- The `esBuildOptions` bag of the esbuild draft (`target?`, `minify?`,
`format?`, `loader?`), each key optional. -/
structure EsBuildOptions where
  target : Option String := none
  minify : Option Bool := none
  format : Option String := none
  loader : Option String := none
deriving DecidableEq

/-- `defaultOptions.esBuildOptions` of the esbuild draft:
`{ target: 'es2020', minify: true, format: 'iife', loader: 'js' }`. -/
def defaultEsBuildOptions : EsBuildOptions :=
  { target := some "es2020"
    minify := some true
    format := some "iife"
    loader := some "js" }

/-- User options of the esbuild draft (`MinifyStaticOptions` with
`esBuildOptions`). -/
structure MinifyStaticOptionsEs where
  sourceDir : Option String := none
  files : Option (List String) := none
  esBuildOptions : Option EsBuildOptions := none
  verbose : Option Bool := none
  outputDir : Option String := none
  framework : Option UserFramework := none
deriving DecidableEq

/-- The effective configuration of the esbuild draft. -/
structure EffectiveConfigEs where
  sourceDir : String
  files : List String
  esBuildOptions : EsBuildOptions
  verbose : Bool
  outputDir : Option String
  framework : UserFramework
deriving DecidableEq

/-- The esbuild draft's `options` object:
`{ ...defaultOptions, sourceDir: ..., ...userOptions, framework: detectedFramework }`.
Unlike the terser draft there is no dedicated `esBuildOptions` merge key, so
a user-supplied `esBuildOptions` bag replaces the default bag wholesale via
the `...userOptions` spread. -/
def resolveConfigEs (user : MinifyStaticOptionsEs) (manifest : Option Manifest) :
    EffectiveConfigEs :=
  let detectedFramework := resolveFramework user.framework manifest
  { sourceDir :=
      match user.sourceDir with
      | some s => s
      | none => getDefaultSourceDir detectedFramework
    files := user.files.getD defaultFiles
    esBuildOptions := user.esBuildOptions.getD defaultEsBuildOptions
    verbose := user.verbose.getD false
    outputDir := user.outputDir
    framework := detectedFramework }

/-! ## Filesystem model

Paths are segment lists (`node:path`'s `join` concatenates and normalises
separators; segment lists model the normalised form, `dirname` is
`List.dropLast`).  The filesystem is a finite association list from paths to
entries; fallible `node:fs` calls return `Except` with the POSIX error the
call raises. -/

/-- A normalised filesystem path, as a list of segments. -/
abbrev FsPath := List String

/-- A filesystem entry: a regular file with its text content, or a
directory. -/
inductive FsEntry
  | file (content : String)
  | dir
deriving DecidableEq

/-- `stats.isFile()`. -/
def FsEntry.isFile : FsEntry → Bool
  | .file _ => true
  | .dir => false

/-- The filesystem state: an association list from paths to entries. -/
structure FS where
  entries : List (FsPath × FsEntry)
deriving DecidableEq

/-- Look up the entry at a path. -/
def FS.lookup (fs : FS) (p : FsPath) : Option FsEntry :=
  (fs.entries.find? (fun e => e.1 == p)).map (fun e => e.2)

/-- `existsSync`. -/
def FS.existsSync (fs : FS) (p : FsPath) : Bool :=
  (fs.lookup p).isSome

/-- Remove the entry at a path (helper for unlink and overwrite). -/
def FS.erase (fs : FS) (p : FsPath) : FS :=
  ⟨fs.entries.filter (fun e => !(e.1 == p))⟩

/-- Set the entry at a path (helper for mkdir and write). -/
def FS.insert (fs : FS) (p : FsPath) (e : FsEntry) : FS :=
  ⟨(p, e) :: (fs.erase p).entries⟩

/-- `readFileSync(p, 'utf-8')`: the content of a regular file; reading a
directory raises `EISDIR`, a missing path raises `ENOENT`. -/
def FS.readFileSync (fs : FS) (p : FsPath) : Except String String :=
  match fs.lookup p with
  | some (.file c) => .ok c
  | some .dir => .error "EISDIR: read on a directory"
  | none => .error "ENOENT: no such file"

/-- `statSync(p)`: the entry at the path, `ENOENT` when missing. -/
def FS.statSync (fs : FS) (p : FsPath) : Except String FsEntry :=
  match fs.lookup p with
  | some e => .ok e
  | none => .error "ENOENT: no such file"

/-- `unlinkSync(p)`: removes a regular file; unlinking a directory raises
(`EISDIR`/`EPERM`), a missing path raises `ENOENT`. -/
def FS.unlinkSync (fs : FS) (p : FsPath) : Except String FS :=
  match fs.lookup p with
  | some (.file _) => .ok (fs.erase p)
  | some .dir => .error "EISDIR: unlink on a directory"
  | none => .error "ENOENT: no such file"

/-- The non-empty ancestor chain of a path, shortest first (the directories
`mkdirSync(p, { recursive: true })` has to ensure). -/
def ancestorChain (p : FsPath) : List FsPath :=
  (List.range p.length).map (fun n => p.take (n + 1))

/-- `mkdirSync(p, { recursive: true })`: creates every missing directory on
the chain; raises when some element of the chain already exists as a
regular file. -/
def FS.mkdirRecSync (fs : FS) (p : FsPath) : Except String FS :=
  if (ancestorChain p).any (fun q => (fs.lookup q).any FsEntry.isFile) then
    .error "ENOTDIR: a path component is a file"
  else
    .ok ((ancestorChain p).foldl
      (fun acc q => if acc.existsSync q then acc else acc.insert q .dir) fs)

/-- `writeFileSync(p, content)`: creates or overwrites a regular file;
raises `EISDIR` when the path is a directory and `ENOTDIR`/`ENOENT` when
the parent is not an existing directory. -/
def FS.writeFileSync (fs : FS) (p : FsPath) (content : String) : Except String FS :=
  match fs.lookup p with
  | some .dir => .error "EISDIR: write on a directory"
  | _ =>
    if p.dropLast.isEmpty then .ok (fs.insert p (.file content))
    else
      match fs.lookup p.dropLast with
      | some .dir => .ok (fs.insert p (.file content))
      | some (.file _) => .error "ENOTDIR: parent is a file"
      | none => .error "ENOENT: parent directory missing"

/-! ## Transform pipeline -/

/-- Character-level splitter (structurally recursive equivalent of
`String.splitOn` on a one-character separator). -/
def splitCharAux (sep : Char) : List Char → List Char → List String
  | [], acc => [String.mk acc.reverse]
  | c :: cs, acc =>
    if c = sep then String.mk acc.reverse :: splitCharAux sep cs []
    else splitCharAux sep cs (c :: acc)

/-- Split a string at every occurrence of a separator character. -/
def splitChar (sep : Char) (s : String) : List String :=
  splitCharAux sep s.toList []

/-- Split a string path into segments (`node:path` join/normalise). -/
def segs (s : String) : FsPath := splitChar '/' s

/-- `join(process.cwd(), options.sourceDir)` then `join(sourceDir, file)`. -/
def sourcePathOf (cwd : FsPath) (sourceDir file : String) : FsPath :=
  cwd ++ segs sourceDir ++ segs file

/-- `options.outputDir ? join(outputDir, options.outputDir, file) :
join(outputDir, file)` (both drafts). -/
def outputPathOf (outputSubdir : Option String) (outputDirStr file : String) : FsPath :=
  match outputSubdir with
  | some od => segs outputDirStr ++ segs od ++ segs file
  | none => segs outputDirStr ++ segs file

/-- One observable console or filesystem action of a run. -/
inductive RunAction
  | logMsg (msg : String)
  | warnMsg (msg : String)
  | errorMsg (msg : String)
  | mkdir (p : FsPath)
  | unlink (p : FsPath)
  | write (p : FsPath)
deriving DecidableEq

/-- The per-file outcome: the success case records the UTF-8 byte lengths
of the source text and of the transformed text
(`Buffer.byteLength(code, 'utf-8')` and `Buffer.byteLength(result.code, 'utf-8')`). -/
inductive FileOutcome
  | success (originalSize minifiedSize : Nat)
  | skippedMissing
  | skippedEmpty
  | skippedReplace
  | errored (msg : String)
deriving DecidableEq

/-- Terser's `minify` resolves to an object whose `code` may be absent. -/
structure TerserResult where
  code : Option String
deriving DecidableEq

/-- The warning text of `safeUnlink`'s directory branch. -/
def cannotUnlinkDirWarning : String := "Cannot unlink directory"

/-- The warning text of `safeUnlink`'s catch branch. -/
def failedUnlinkWarning : String := "Failed to unlink"

/-- The warning text of the replace-skip branch of the terser loop. -/
def couldNotReplaceWarning : String := "Could not replace, skipping"

/-- The warning text of the empty-transform branch of the terser loop. -/
def emptyResultWarning : String := "Terser returned empty result"

/-- The warning text of the missing-source branch (verbose only). -/
def sourceMissingWarning : String := "Source file not found"

/-- The per-file error text (`console.error` in the catch). -/
def errorMinifyingMsg : String := "Error minifying"

/-- `safeUnlink` of the terser draft: `true` when the path is free to be
written (missing, or was a regular file and was removed), `false` with a
warning when the path is not a regular file or the removal fails; nothing
but a regular file at the given path is ever removed. -/
def safeUnlink (fs : FS) (filePath : FsPath) : FS × Bool × List RunAction :=
  if fs.existsSync filePath = false then
    (fs, true, [])
  else
    match fs.statSync filePath with
    | .error _ => (fs, false, [RunAction.warnMsg failedUnlinkWarning])
    | .ok st =>
      if st.isFile then
        match fs.unlinkSync filePath with
        | .ok fsAfter => (fsAfter, true, [RunAction.unlink filePath])
        | .error _ => (fs, false, [RunAction.warnMsg failedUnlinkWarning])
      else
        (fs, false, [RunAction.warnMsg cannotUnlinkDirWarning])

/-- The body of the terser draft's per-file loop iteration, `try`/`catch`
included: every `Except.error` of a filesystem call or of the external
`minify` oracle is routed to the `catch` branch, which logs
`console.error` and yields the `errored` outcome while keeping the
filesystem mutations already performed. -/
def processFileT (options : EffectiveConfigT)
    (minifyOracle : String → TerserOptionsUser → Except String TerserResult)
    (cwd : FsPath) (outputDirStr : String) (fs : FS) (file : String) :
    FS × FileOutcome × List RunAction :=
  let sourcePath := sourcePathOf cwd options.sourceDir file
  let outputPath := outputPathOf options.outputDir outputDirStr file
  if fs.existsSync sourcePath = false then
    (fs, .skippedMissing, if options.verbose then [RunAction.warnMsg sourceMissingWarning] else [])
  else
    match fs.readFileSync sourcePath with
    | .error e => (fs, .errored e, [RunAction.errorMsg errorMinifyingMsg])
    | .ok code =>
      match minifyOracle code options.terserOptions with
      | .error e => (fs, .errored e, [RunAction.errorMsg errorMinifyingMsg])
      | .ok result =>
        match result.code with
        | none => (fs, .skippedEmpty, [RunAction.warnMsg emptyResultWarning])
        | some out =>
          if out.isEmpty then
            (fs, .skippedEmpty, [RunAction.warnMsg emptyResultWarning])
          else
            let outputDirPath := outputPath.dropLast
            match
              (if fs.existsSync outputDirPath then Except.ok (fs, ([] : List RunAction))
               else (fs.mkdirRecSync outputDirPath).map
                 (fun fsMade => (fsMade, [RunAction.mkdir outputDirPath]))) with
            | .error e => (fs, .errored e, [RunAction.errorMsg errorMinifyingMsg])
            | .ok made =>
              let replaced :=
                if made.1.existsSync outputPath then safeUnlink made.1 outputPath
                else (made.1, true, [])
              if replaced.2.1 = false then
                (replaced.1, .skippedReplace,
                  made.2 ++ replaced.2.2 ++ [RunAction.warnMsg couldNotReplaceWarning])
              else
                match replaced.1.writeFileSync outputPath out with
                | .error e =>
                  (replaced.1, .errored e,
                    made.2 ++ replaced.2.2 ++ [RunAction.errorMsg errorMinifyingMsg])
                | .ok fsWritten =>
                  (fsWritten, .success code.utf8ByteSize out.utf8ByteSize,
                    made.2 ++ replaced.2.2 ++ [RunAction.write outputPath] ++
                      (if options.verbose then [RunAction.logMsg file] else []))

/-- The running totals of a `writeBundle` invocation
(`minifiedCount` and `totalSavings`). -/
structure RunAcc where
  minifiedCount : Nat
  totalSavings : Int
deriving DecidableEq

/-- The accumulator update after one file: `minifiedCount++` on every
successful write, and `totalSavings += originalSize - minifiedSize` only
inside the `if (options.verbose)` block. -/
def stepAcc (verbose : Bool) (acc : RunAcc) (o : FileOutcome) : RunAcc :=
  match o with
  | .success orig mini =>
    { minifiedCount := acc.minifiedCount + 1
      totalSavings :=
        if verbose then acc.totalSavings + ((orig : Int) - (mini : Int))
        else acc.totalSavings }
  | _ => acc

/-- The `for (const file of filesToMinify)` loop of the terser draft:
files are processed strictly sequentially, each through `processFileT`,
threading the filesystem and the accumulator. -/
def runLoopT (options : EffectiveConfigT)
    (minifyOracle : String → TerserOptionsUser → Except String TerserResult)
    (cwd : FsPath) (outputDirStr : String) :
    FS → RunAcc → List String →
      FS × RunAcc × List (String × FileOutcome) × List RunAction
  | fs, acc, [] => (fs, acc, [], [])
  | fs, acc, file :: rest =>
    let s := processFileT options minifyOracle cwd outputDirStr fs file
    let r := runLoopT options minifyOracle cwd outputDirStr s.1
      (stepAcc options.verbose acc s.2.1) rest
    (r.1, r.2.1, (file, s.2.1) :: r.2.2.1, s.2.2 ++ r.2.2.2)

/-- Which return path the `writeBundle` hook took. -/
inductive HookExit
  | skippedBundle
  | noOutputDir
  | noFiles
  | completed
  | topError
deriving DecidableEq

/-- The observable result of one `writeBundle` invocation. -/
structure WriteBundleResult where
  exit : HookExit
  fs : FS
  outcomes : List (String × FileOutcome)
  summary : RunAcc
  actions : List RunAction
deriving DecidableEq

/-- The warning text of the missing-output-directory early return. -/
def noOutputWarning : String := "No output directory found, skipping minification"

/-- The verbose log text of the bundle-skip early return. -/
def skipBundleLog : String := "Skipping bundle"

/-- The verbose log text printed before the glob call. -/
def lookingLog : String := "Looking for static files"

/-- The verbose log text of the empty file-selection early return. -/
def noFilesLog : String := "No static files found to minify"

/-- The summary log text printed when at least one file was minified. -/
def minifiedSummaryLog : String := "Minified static files"

/-- The top-level error text (`console.error` of the outer catch). -/
def topErrorMsg : String := "Error in vite-minify-static-plugin"

/-- The `try { ... }` body of the terser draft's `writeBundle` after the
early returns: the fast-glob call (whose `Except`-valued outcome is the
`globResult` oracle) may throw — that error escapes this body — then the
empty-selection early return, the per-file loop, and the summary log. -/
def writeBundleTryT (options : EffectiveConfigT)
    (minifyOracle : String → TerserOptionsUser → Except String TerserResult)
    (cwd : FsPath) (outputDirStr : String)
    (globResult : Except String (List String)) (fs : FS) :
    Except String WriteBundleResult :=
  match globResult with
  | .error e => .error e
  | .ok filesToMinify =>
    if filesToMinify.length = 0 then
      .ok { exit := .noFiles, fs := fs, outcomes := [], summary := ⟨0, 0⟩,
            actions := if options.verbose then [RunAction.logMsg noFilesLog] else [] }
    else
      let r := runLoopT options minifyOracle cwd outputDirStr fs ⟨0, 0⟩ filesToMinify
      .ok { exit := .completed, fs := r.1, outcomes := r.2.2.1, summary := r.2.1,
            actions :=
              if r.2.1.minifiedCount > 0 then r.2.2.2 ++ [RunAction.logMsg minifiedSummaryLog]
              else r.2.2.2 }

/-- The full `writeBundle` hook of the terser draft, as the host bundler
observes it: the bundle filter's early return, the missing-output-directory
early return (`if (!outputDir)`, which also fires on the empty string), the
verbose pre-log, and the outer `try`/`catch` that converts any error thrown
by the body into a logged normal return.  The codomain is `Except` so that
an uncaught error would be visible to the host as `.error`. -/
def writeBundleT (options : EffectiveConfigT)
    (minifyOracle : String → TerserOptionsUser → Except String TerserResult)
    (cwd : FsPath) (globResult : Except String (List String))
    (bundleOptions : BundleOptions) (fs : FS) :
    Except String WriteBundleResult :=
  if shouldProcessBundle bundleOptions options.framework = false then
    .ok { exit := .skippedBundle, fs := fs, outcomes := [], summary := ⟨0, 0⟩,
          actions := if options.verbose then [RunAction.logMsg skipBundleLog] else [] }
  else
    match bundleOptions.dir with
    | none =>
      .ok { exit := .noOutputDir, fs := fs, outcomes := [], summary := ⟨0, 0⟩,
            actions := [RunAction.warnMsg noOutputWarning] }
    | some outputDirStr =>
      if outputDirStr.isEmpty then
        .ok { exit := .noOutputDir, fs := fs, outcomes := [], summary := ⟨0, 0⟩,
              actions := [RunAction.warnMsg noOutputWarning] }
      else
        let preActs : List RunAction :=
          if options.verbose then [RunAction.logMsg lookingLog] else []
        match writeBundleTryT options minifyOracle cwd outputDirStr globResult fs with
        | .ok r => .ok { r with actions := preActs ++ r.actions }
        | .error _ =>
          .ok { exit := .topError, fs := fs, outcomes := [], summary := ⟨0, 0⟩,
                actions := preActs ++ [RunAction.errorMsg topErrorMsg] }

/-! ## The esbuild draft's per-file step -/

/-- Model of `extname(file)` for the relevant cases: the extension of the
last path segment (dot-only names approximated). -/
def extnameOf (file : String) : String :=
  let base := (segs file).getLastD ""
  let parts := splitChar '.' base
  if parts.length ≤ 1 then "" else "." ++ parts.getLastD ""

/-- The loader selection of the esbuild draft: `options.esBuildOptions.loader
|| 'js'`, overridden by the lower-cased file extension for `.ts`, `.jsx`,
`.tsx`. -/
def chooseLoader (options : EffectiveConfigEs) (file : String) : String :=
  let ext := String.mk ((extnameOf file).toList.map Char.toLower)
  let loader := options.esBuildOptions.loader.getD "js"
  if ext = ".ts" then "ts"
  else if ext = ".jsx" then "jsx"
  else if ext = ".tsx" then "tsx"
  else loader

/-- The body of the esbuild draft's per-file loop iteration, `try`/`catch`
included.  Two translated defects of the source are visible here:
`require('fs').mkDirSync` names a function that does not exist on the `fs`
module (calling it throws a `TypeError`, modelled as an error whenever the
destination's parent is missing), and the replacement step calls
`unlinkSync(outputDirPath)` — the destination's parent directory — instead
of `unlinkSync(outputPath)`. -/
def processFileEs (options : EffectiveConfigEs)
    (transformSyncOracle : String → EsBuildOptions → Except String String)
    (cwd : FsPath) (outputDirStr : String) (fs : FS) (file : String) :
    FS × FileOutcome × List RunAction :=
  let sourcePath := sourcePathOf cwd options.sourceDir file
  let outputPath := outputPathOf options.outputDir outputDirStr file
  if fs.existsSync sourcePath = false then
    (fs, .skippedMissing, if options.verbose then [RunAction.warnMsg sourceMissingWarning] else [])
  else
    match fs.readFileSync sourcePath with
    | .error e => (fs, .errored e, [RunAction.errorMsg errorMinifyingMsg])
    | .ok code =>
      let loader := chooseLoader options file
      match transformSyncOracle code { options.esBuildOptions with loader := some loader } with
      | .error e => (fs, .errored e, [RunAction.errorMsg errorMinifyingMsg])
      | .ok outCode =>
        let outputDirPath := outputPath.dropLast
        if fs.existsSync outputDirPath = false then
          (fs, .errored "TypeError: mkDirSync is not a function",
            [RunAction.errorMsg errorMinifyingMsg])
        else
          match
            (if fs.existsSync outputPath then
              (fs.unlinkSync outputDirPath).map
                (fun fsAfter => (fsAfter, [RunAction.unlink outputDirPath]))
             else Except.ok (fs, ([] : List RunAction))) with
          | .error e => (fs, .errored e, [RunAction.errorMsg errorMinifyingMsg])
          | .ok unlinked =>
            match unlinked.1.writeFileSync outputPath outCode with
            | .error e =>
              (unlinked.1, .errored e, unlinked.2 ++ [RunAction.errorMsg errorMinifyingMsg])
            | .ok fsWritten =>
              (fsWritten, .success code.utf8ByteSize outCode.utf8ByteSize,
                unlinked.2 ++ [RunAction.write outputPath] ++
                  (if options.verbose then [RunAction.logMsg file] else []))

/-! ## Helper lemmas and shared concrete fixtures -/

/-- `strIncludes` is the boolean reflection of list-infix containment of the
needle's characters in the hay's characters. -/
theorem strIncludes_iff (hay needle : String) :
    strIncludes hay needle = true ↔ needle.toList <:+: hay.toList := by
  simp [strIncludes]

/-- A successful `readFileSync` implies `existsSync`. -/
theorem readFileSync_ok_exists (fs : FS) (p : FsPath) (c : String)
    (h : fs.readFileSync p = .ok c) : fs.existsSync p = true := by
  unfold FS.readFileSync at h
  unfold FS.existsSync
  cases hl : fs.lookup p with
  | none => rw [hl] at h; cases h
  | some e => simp [hl]

/-- The framework resolution always yields a concrete framework. -/
theorem resolveFramework_concrete (uf : Option UserFramework) (m : Option Manifest) :
    ∃ f : Framework, resolveFramework uf m = .concrete f := by
  match uf with
  | none => exact ⟨.vanilla, rfl⟩
  | some .auto => exact ⟨detectFramework m, rfl⟩
  | some (.concrete f) => exact ⟨f, rfl⟩

/-- A manifest declaring only a SvelteKit dependency. -/
def svelteManifest : Manifest := ⟨["@sveltejs/kit"], []⟩

/-- A concrete effective configuration of the terser draft: react project,
`verbose: false`, no `outputDir`. -/
def cfgReactT : EffectiveConfigT :=
  { sourceDir := "public", files := defaultFiles, terserOptions := defaultTerserOptions,
    verbose := false, outputDir := none, framework := .concrete .react }

/-- A concrete effective configuration of the esbuild draft: react project,
`verbose: false`, no `outputDir`. -/
def cfgReactEs : EffectiveConfigEs :=
  { sourceDir := "public", files := defaultFiles, esBuildOptions := defaultEsBuildOptions,
    verbose := false, outputDir := none, framework := .concrete .react }

/-! ## Claims -/

/-- Claim C2: the claim says that when `framework` is `'auto'` or unset the
detector is invoked; the code only checks `userOptions.framework === 'auto'`,
so an unset `framework` takes the `userOptions.framework || 'vanilla'` branch
and the detector is never consulted.  At the failing input — no user
`framework`, manifest declaring `@sveltejs/kit` — the code stores
`'vanilla'` (and `sourceDir 'public'`), while the detector, had it been
invoked as the claim and the README state, would return `'sveltekit'`. -/
theorem C2_unset_framework_skips_detection :
    resolveFramework none (some svelteManifest) = .concrete .vanilla ∧
    detectFramework (some svelteManifest) = .sveltekit ∧
    (resolveConfigT {} (some svelteManifest)).framework = .concrete .vanilla ∧
    (resolveConfigT {} (some svelteManifest)).sourceDir = "public" := by
  refine ⟨rfl, by decide, rfl, rfl⟩

/-- Claim C3: for `sveltekit` the bundle filter accepts exactly the
descriptors whose directory path contains the `client` marker substring,
whatever else the path contains; for every other framework it accepts
exactly the paths containing neither `server` nor `ssr`. -/
theorem C3_bundle_filter (p : String) :
    (shouldProcessBundle ⟨some p⟩ (.concrete .sveltekit) = true ↔
      "client".toList <:+: p.toList) ∧
    (∀ f : Framework, f ≠ .sveltekit →
      (shouldProcessBundle ⟨some p⟩ (.concrete f) = true ↔
        ¬("server".toList <:+: p.toList) ∧ ¬("ssr".toList <:+: p.toList))) := by
  constructor
  · simp [shouldProcessBundle, strIncludes]
  · intro f hf
    cases f with
    | sveltekit => exact absurd rfl hf
    | react => simp [shouldProcessBundle, strIncludes]
    | vue => simp [shouldProcessBundle, strIncludes]
    | vanilla => simp [shouldProcessBundle, strIncludes]

/-- Witness for C3 at concrete descriptors. -/
theorem C3_bundle_filter_witness :
    shouldProcessBundle ⟨some "build/client"⟩ (.concrete .sveltekit) = true ∧
    shouldProcessBundle ⟨some "dist"⟩ (.concrete .react) = true ∧
    shouldProcessBundle ⟨some "dist/ssr"⟩ (.concrete .vanilla) = false := by
  refine ⟨(C3_bundle_filter "build/client").1.mpr (by decide),
    ((C3_bundle_filter "dist").2 .react (by decide)).mpr (by decide), ?_⟩
  have h := ((C3_bundle_filter "dist/ssr").2 .vanilla (by decide))
  cases hb : shouldProcessBundle ⟨some "dist/ssr"⟩ (.concrete .vanilla) with
  | false => rfl
  | true => exact absurd ((h.mp hb).2) (by decide)

/-- Claim C8: the detector returns exactly one of the four concrete
frameworks (its codomain), evaluated first-match-wins: a SvelteKit key wins
over any React or Vue keys, React keys win over Vue keys, and an absent or
unparseable manifest yields `vanilla`. -/
theorem C8_detector_priority :
    detectFramework none = Framework.vanilla ∧
    (∀ m : Manifest, m.hasDep "@sveltejs/kit" = true →
      detectFramework (some m) = .sveltekit) ∧
    (∀ m : Manifest, m.hasDep "@sveltejs/kit" = false →
      (m.hasDep "react" || m.hasDep "@vitejs/plugin-react") = true →
      detectFramework (some m) = .react) ∧
    (∀ m : Manifest, m.hasDep "@sveltejs/kit" = false →
      (m.hasDep "react" || m.hasDep "@vitejs/plugin-react") = false →
      (m.hasDep "vue" || m.hasDep "@vitejs/plugin-vue") = true →
      detectFramework (some m) = .vue) ∧
    (∀ m : Manifest, m.hasDep "@sveltejs/kit" = false →
      (m.hasDep "react" || m.hasDep "@vitejs/plugin-react") = false →
      (m.hasDep "vue" || m.hasDep "@vitejs/plugin-vue") = false →
      detectFramework (some m) = .vanilla) := by
  refine ⟨rfl, ?_, ?_, ?_, ?_⟩
  · intro m h1; simp [detectFramework, h1]
  · intro m h1 h2; simp [detectFramework, h1, h2]
  · intro m h1 h2 h3; simp [detectFramework, h1, h2, h3]
  · intro m h1 h2 h3; simp [detectFramework, h1, h2, h3]

/-- Witness for C8 at concrete manifests, including a manifest declaring
all three framework markers simultaneously. -/
theorem C8_detector_priority_witness :
    detectFramework (some ⟨["@sveltejs/kit", "react", "vue"], []⟩) = .sveltekit ∧
    detectFramework (some ⟨["react"], ["vue"]⟩) = .react ∧
    detectFramework (some ⟨[], ["@vitejs/plugin-vue"]⟩) = .vue ∧
    detectFramework (some ⟨["lodash"], []⟩) = .vanilla :=
  ⟨C8_detector_priority.2.1 _ (by decide),
   C8_detector_priority.2.2.1 _ (by decide) (by decide),
   C8_detector_priority.2.2.2.1 _ (by decide) (by decide) (by decide),
   C8_detector_priority.2.2.2.2 _ (by decide) (by decide) (by decide)⟩

/-- Claim C9: for every user configuration and every manifest, the
`framework` field of the effective configuration (in either draft) is a
concrete framework, never `auto`. -/
theorem C9_framework_never_auto :
    ∀ (u : MinifyStaticOptionsT) (ue : MinifyStaticOptionsEs) (m : Option Manifest),
      (∃ f : Framework, (resolveConfigT u m).framework = .concrete f) ∧
      (∃ f : Framework, (resolveConfigEs ue m).framework = .concrete f) := by
  intro u ue m
  constructor
  · simpa [resolveConfigT] using resolveFramework_concrete u.framework m
  · simpa [resolveConfigEs] using resolveFramework_concrete ue.framework m

/-- Claim C4: no error thrown anywhere inside the `writeBundle` hook —
including a failing directory listing (`globResult = .error …`), a throwing
transformer or a failing filesystem call — ever reaches the host: the hook
always returns `.ok`.  Moreover the per-file loop yields exactly one
outcome per selected file, in order, so a failure while processing one file
never prevents the remaining files from being processed. -/
theorem C4_error_containment :
    (∀ (options : EffectiveConfigT)
      (minifyOracle : String → TerserOptionsUser → Except String TerserResult)
      (cwd : FsPath) (globResult : Except String (List String))
      (bundleOptions : BundleOptions) (fs : FS),
      ∃ r, writeBundleT options minifyOracle cwd globResult bundleOptions fs = .ok r) ∧
    (∀ (options : EffectiveConfigT)
      (minifyOracle : String → TerserOptionsUser → Except String TerserResult)
      (cwd : FsPath) (outputDirStr : String) (fs : FS) (acc : RunAcc) (files : List String),
      (runLoopT options minifyOracle cwd outputDirStr fs acc files).2.2.1.map Prod.fst
        = files) := by
  constructor
  · intro o mo c g b fs
    unfold writeBundleT
    repeat' first
      | exact ⟨_, rfl⟩
      | split
  · intro o mo c d fs acc files
    induction files generalizing fs acc with
    | nil => rfl
    | cons f rest ih => simp [runLoopT, ih]

/-- A filesystem whose destination path `dist/a.js` is a directory with a
file inside it (terser-draft fixture for C1). -/
def fsDestDirT : FS :=
  ⟨[(["proj", "public", "a.js"], .file "var x"), (["dist"], .dir),
    (["dist", "a.js"], .dir), (["dist", "a.js", "inner.js"], .file "keep")]⟩

/-- A filesystem whose destination path `dist/a.js` is a pre-existing
regular file (esbuild-draft fixture for C1). -/
def fsDestFileEs : FS :=
  ⟨[(["proj", "public", "a.js"], .file "var x"), (["dist"], .dir),
    (["dist", "a.js"], .file "old")]⟩

/-- Claim C1: in the terser draft the claim holds — a destination that is a
directory makes `safeUnlink` refuse, the step warns twice (`Cannot unlink
directory`, `Could not replace`), skips the file, removes nothing and
returns the filesystem unchanged.  The esbuild draft however calls
`unlinkSync(outputDirPath)` on the destination's PARENT directory: at a
destination that already exists, the unlink of the parent directory raises
`EISDIR`, the per-file catch logs an error (not a warning), nothing is ever
deleted, and the pre-existing destination is never replaced — contradicting
the claim's `only the destination regular file itself is ever deleted` and
its draft's own `Delete original if it exists` comment. -/
theorem C1_destination_replace_guard :
    (processFileT cfgReactT (fun _ _ => .ok ⟨some "x"⟩) ["proj"] "dist" fsDestDirT "a.js"
        = (fsDestDirT, .skippedReplace,
            [RunAction.warnMsg cannotUnlinkDirWarning,
             RunAction.warnMsg couldNotReplaceWarning])) ∧
    (processFileEs cfgReactEs (fun _ _ => .ok "x") ["proj"] "dist" fsDestFileEs "a.js"
        = (fsDestFileEs, .errored "EISDIR: unlink on a directory",
            [RunAction.errorMsg errorMinifyingMsg])) := by
  exact ⟨by decide, by decide⟩

/-- Claim C10: with an absent (or empty) output directory path the bundle
filter evaluates the path as `''`: for `sveltekit` it returns `false` and
the hook takes the bundle-skip return (no missing-output-directory
warning); for every other framework it returns `true` and the hook's
separate `if (!outputDir)` check fires, warns and ends the run. -/
theorem C10_absent_output_dir (options : EffectiveConfigT)
    (minifyOracle : String → TerserOptionsUser → Except String TerserResult)
    (cwd : FsPath) (globResult : Except String (List String)) (fs : FS)
    (d : Option String) (hd : d = none ∨ d = some "") :
    (options.framework = .concrete .sveltekit →
      shouldProcessBundle ⟨d⟩ options.framework = false ∧
      writeBundleT options minifyOracle cwd globResult ⟨d⟩ fs =
        .ok { exit := .skippedBundle, fs := fs, outcomes := [], summary := ⟨0, 0⟩,
              actions := if options.verbose then [RunAction.logMsg skipBundleLog] else [] }) ∧
    (∀ f : Framework, f ≠ .sveltekit → options.framework = .concrete f →
      shouldProcessBundle ⟨d⟩ options.framework = true ∧
      writeBundleT options minifyOracle cwd globResult ⟨d⟩ fs =
        .ok { exit := .noOutputDir, fs := fs, outcomes := [], summary := ⟨0, 0⟩,
              actions := [RunAction.warnMsg noOutputWarning] }) := by
  have he : "".isEmpty = true := rfl
  rcases hd with rfl | rfl
  · constructor
    · intro hfw
      have hs : shouldProcessBundle ⟨none⟩ options.framework = false := by
        rw [hfw]; decide
      refine ⟨hs, ?_⟩
      unfold writeBundleT
      rw [hs]
      simp
    · intro f hf hfw
      have hs : shouldProcessBundle ⟨none⟩ options.framework = true := by
        rw [hfw]
        cases f with
        | sveltekit => exact absurd rfl hf
        | react => decide
        | vue => decide
        | vanilla => decide
      refine ⟨hs, ?_⟩
      unfold writeBundleT
      rw [hs]
      simp
  · constructor
    · intro hfw
      have hs : shouldProcessBundle ⟨some ""⟩ options.framework = false := by
        rw [hfw]; decide
      refine ⟨hs, ?_⟩
      unfold writeBundleT
      rw [hs]
      simp [he]
    · intro f hf hfw
      have hs : shouldProcessBundle ⟨some ""⟩ options.framework = true := by
        rw [hfw]
        cases f with
        | sveltekit => exact absurd rfl hf
        | react => decide
        | vue => decide
        | vanilla => decide
      refine ⟨hs, ?_⟩
      unfold writeBundleT
      rw [hs]
      simp [he]

/-- A concrete sveltekit effective configuration of the terser draft. -/
def cfgSvelteT : EffectiveConfigT :=
  { sourceDir := "static", files := defaultFiles, terserOptions := defaultTerserOptions,
    verbose := false, outputDir := none, framework := .concrete .sveltekit }

/-- Witness for C10 at concrete configurations and an absent directory. -/
theorem C10_absent_output_dir_witness :
    writeBundleT cfgSvelteT (fun _ _ => .ok ⟨none⟩) [] (.ok []) ⟨none⟩ ⟨[]⟩ =
      .ok { exit := .skippedBundle, fs := ⟨[]⟩, outcomes := [], summary := ⟨0, 0⟩,
            actions := [] } ∧
    writeBundleT cfgReactT (fun _ _ => .ok ⟨none⟩) [] (.ok []) ⟨none⟩ ⟨[]⟩ =
      .ok { exit := .noOutputDir, fs := ⟨[]⟩, outcomes := [], summary := ⟨0, 0⟩,
            actions := [RunAction.warnMsg noOutputWarning] } := by
  constructor
  · exact ((C10_absent_output_dir cfgSvelteT (fun _ _ => .ok ⟨none⟩) [] (.ok []) ⟨[]⟩
      none (Or.inl rfl)).1 rfl).2
  · exact ((C10_absent_output_dir cfgReactT (fun _ _ => .ok ⟨none⟩) [] (.ok []) ⟨[]⟩
      none (Or.inl rfl)).2 .react (by decide) rfl).2

/-- Claim C5 (counterexample): the esbuild draft has no empty-result guard.
With a transformer yielding the empty output text and a fresh destination,
the step writes an empty file at the destination, records a success (not
`skipped-empty-result`) and emits no warning — contradicting the claim as
stated over the whole program. -/
def fsFreshDestEs : FS :=
  ⟨[(["proj", "public", "a.js"], .file "x;"), (["dist"], .dir)]⟩

/-- Counterexample for C5: the esbuild pipeline writes the empty transform
output to the destination and counts the file as minified. -/
theorem C5_no_empty_guard_in_esbuild_draft :
    (processFileEs cfgReactEs (fun _ _ => .ok "") ["proj"] "dist" fsFreshDestEs "a.js").1.lookup
        ["dist", "a.js"] = some (.file "") ∧
    (processFileEs cfgReactEs (fun _ _ => .ok "") ["proj"] "dist" fsFreshDestEs "a.js").2.1
        = .success 2 0 ∧
    (processFileEs cfgReactEs (fun _ _ => .ok "") ["proj"] "dist" fsFreshDestEs "a.js").2.2
        = [RunAction.write ["dist", "a.js"]] := by
  refine ⟨by decide, by decide, by decide⟩

/-- Claim C5 (amended): in the terser draft the guard holds — whenever the
transformer resolves with no output text (`result.code` absent or empty,
both falsy under `!result.code`), the step records `skipped-empty-result`,
logs exactly the warning, writes nothing and leaves the filesystem
untouched, so a pre-existing destination file survives and the loop
continues with the next file. -/
theorem C5_empty_result_guard
    (options : EffectiveConfigT)
    (minifyOracle : String → TerserOptionsUser → Except String TerserResult)
    (cwd : FsPath) (outputDirStr : String) (fs : FS) (file : String)
    (code : String) (res : TerserResult)
    (hread : fs.readFileSync (sourcePathOf cwd options.sourceDir file) = .ok code)
    (hmin : minifyOracle code options.terserOptions = .ok res)
    (hempty : res.code = none ∨ res.code = some "") :
    processFileT options minifyOracle cwd outputDirStr fs file =
      (fs, .skippedEmpty, [RunAction.warnMsg emptyResultWarning]) := by
  have hex := readFileSync_ok_exists _ _ _ hread
  unfold processFileT
  simp only [hex, hread, hmin, Bool.true_eq_false, if_false]
  rcases hempty with h | h
  · rw [h]
  · rw [h]; rfl

/-- A source tree with one file `public/a.js` (terser-draft fixture for the
C5 witness). -/
def fsSourceOnlyT : FS := ⟨[(["proj", "public", "a.js"], .file "x")]⟩

/-- Witness for the amended C5 at a concrete run whose transformer resolves
without a `code` field. -/
theorem C5_empty_result_guard_witness :
    processFileT cfgReactT (fun _ _ => .ok ⟨none⟩) ["proj"] "dist" fsSourceOnlyT "a.js" =
      (fsSourceOnlyT, .skippedEmpty, [RunAction.warnMsg emptyResultWarning]) :=
  C5_empty_result_guard cfgReactT (fun _ _ => .ok ⟨none⟩) ["proj"] "dist" fsSourceOnlyT
    "a.js" "x" ⟨none⟩ rfl rfl (Or.inl rfl)

/-- User options of the esbuild draft supplying only `minify: false` in the
`esBuildOptions` bag (C6 fixture). -/
def c6UserEs : MinifyStaticOptionsEs := { esBuildOptions := some { minify := some false } }

/-- Counterexample for C6: in the esbuild draft a user-supplied options bag
replaces the defaults wholesale — the `target` sub-key, unspecified by the
user, does NOT retain its default `'es2020'` in the effective
configuration. -/
theorem C6_esbuild_options_replaced_wholesale :
    (resolveConfigEs c6UserEs none).esBuildOptions.target = none ∧
    defaultEsBuildOptions.target = some "es2020" ∧
    (resolveConfigEs c6UserEs none).esBuildOptions.target ≠ defaultEsBuildOptions.target := by
  refine ⟨rfl, rfl, by decide⟩

/-- Claim C6 (amended): the terser draft deep-merges `terserOptions` — each
sub-key the user supplies overrides the default, each sub-key the user
omits retains its default, and an absent bag leaves the defaults intact —
while the esbuild draft replaces the whole `esBuildOptions` bag with the
user's bag whenever one is supplied. -/
theorem C6_transform_options_merge :
    ∀ (u : MinifyStaticOptionsT) (ue : MinifyStaticOptionsEs) (m : Option Manifest),
      ((u.terserOptions = none →
          (resolveConfigT u m).terserOptions = defaultTerserOptions) ∧
        (∀ t : TerserOptionsUser, u.terserOptions = some t →
          ((t.compress = none →
              (resolveConfigT u m).terserOptions.compress = defaultTerserOptions.compress) ∧
            (∀ v, t.compress = some v →
              (resolveConfigT u m).terserOptions.compress = some v) ∧
            (t.mangle = none →
              (resolveConfigT u m).terserOptions.mangle = defaultTerserOptions.mangle) ∧
            (∀ v, t.mangle = some v →
              (resolveConfigT u m).terserOptions.mangle = some v) ∧
            (t.format = none →
              (resolveConfigT u m).terserOptions.format = defaultTerserOptions.format) ∧
            (∀ v, t.format = some v →
              (resolveConfigT u m).terserOptions.format = some v) ∧
            (t.sourcemap = none →
              (resolveConfigT u m).terserOptions.sourcemap = defaultTerserOptions.sourcemap) ∧
            (∀ v, t.sourcemap = some v →
              (resolveConfigT u m).terserOptions.sourcemap = some v)))) ∧
      ((ue.esBuildOptions = none →
          (resolveConfigEs ue m).esBuildOptions = defaultEsBuildOptions) ∧
        (∀ bag : EsBuildOptions, ue.esBuildOptions = some bag →
          (resolveConfigEs ue m).esBuildOptions = bag)) := by
  intro u ue m
  refine ⟨⟨?_, ?_⟩, ?_, ?_⟩
  · intro h
    simp [resolveConfigT, h, mergeTerserOptions, mergeKey, defaultTerserOptions]
  · intro t ht
    refine ⟨?_, ?_, ?_, ?_, ?_, ?_, ?_, ?_⟩ <;>
      first
        | (intro h; simp [resolveConfigT, ht, mergeTerserOptions, mergeKey, h])
        | (intro v h; simp [resolveConfigT, ht, mergeTerserOptions, mergeKey, h])
  · intro h
    simp [resolveConfigEs, h]
  · intro bag h
    simp [resolveConfigEs, h]

/-- User options of the terser draft supplying only `compress: false` (C6
witness fixture). -/
def c6UserT : MinifyStaticOptionsT :=
  { terserOptions := some { compress := some (.bool false) } }

/-- Witness for the amended C6: a user `compress` overrides, the omitted
`mangle` retains its default, the esbuild bag is replaced wholesale. -/
theorem C6_transform_options_merge_witness :
    (resolveConfigT c6UserT none).terserOptions.compress = some (.bool false) ∧
    (resolveConfigT c6UserT none).terserOptions.mangle = defaultTerserOptions.mangle ∧
    (resolveConfigEs c6UserEs none).esBuildOptions = { minify := some false } :=
  ⟨((C6_transform_options_merge c6UserT c6UserEs none).1.2 _ rfl).2.1 _ rfl,
   ((C6_transform_options_merge c6UserT c6UserEs none).1.2 _ rfl).2.2.1 rfl,
   (C6_transform_options_merge c6UserT c6UserEs none).2.2 _ rfl⟩

/-- Whether a per-file outcome is a successful write. -/
def isSuccessOutcome : FileOutcome → Bool
  | .success _ _ => true
  | _ => false

/-- The byte saving a per-file outcome contributes
(`originalSize - minifiedSize` for a success, nothing otherwise). -/
def successSaving : FileOutcome → Int
  | .success orig mini => (orig : Int) - (mini : Int)
  | _ => 0

/-- The number of successfully written files among a list of outcomes. -/
def successCount (outs : List (String × FileOutcome)) : Nat :=
  (outs.filter (fun x => isSuccessOutcome x.2)).length

/-- The total bytes saved across the successfully written files of a list
of outcomes. -/
def savedSum (outs : List (String × FileOutcome)) : Int :=
  (outs.map (fun x => successSaving x.2)).sum

/-- Claim C7 (amended): after the loop, `minifiedCount` is the number of
successfully written files regardless of the `verbose` flag, but
`totalSavings` only accumulates the per-file byte savings when `verbose`
is enabled — with `verbose` off it stays at its initial value. -/
theorem C7_summary_accounting :
    ∀ (options : EffectiveConfigT)
      (minifyOracle : String → TerserOptionsUser → Except String TerserResult)
      (cwd : FsPath) (outputDirStr : String) (fs : FS) (acc : RunAcc) (files : List String),
      ((runLoopT options minifyOracle cwd outputDirStr fs acc files).2.1.minifiedCount
          = acc.minifiedCount
            + successCount (runLoopT options minifyOracle cwd outputDirStr fs acc files).2.2.1) ∧
      ((runLoopT options minifyOracle cwd outputDirStr fs acc files).2.1.totalSavings
          = if options.verbose then
              acc.totalSavings
                + savedSum (runLoopT options minifyOracle cwd outputDirStr fs acc files).2.2.1
            else acc.totalSavings) := by
  intro o mo c d fs acc files
  induction files generalizing fs acc with
  | nil =>
    constructor
    · simp [runLoopT, successCount]
    · simp [runLoopT, savedSum]
  | cons f rest ih =>
    obtain ⟨ih1, ih2⟩ :=
      ih (processFileT o mo c d fs f).1 (stepAcc o.verbose acc (processFileT o mo c d fs f).2.1)
    cases ho : (processFileT o mo c d fs f).2.1 <;> rw [ho] at ih1 ih2 <;> constructor
    all_goals simp only [runLoopT, ho]
    all_goals first
      | (rw [ih1];
         simp [stepAcc, successCount, isSuccessOutcome, List.filter_cons];
         try omega)
      | (rw [ih2];
         by_cases hv : o.verbose <;>
           simp [stepAcc, savedSum, successSaving, hv] <;> try omega)

/-- A source tree with one ten-byte file `public/a.js` (C7 fixture). -/
def fsTenByteT : FS := ⟨[(["proj", "public", "a.js"], .file "0123456789")]⟩

/-- Counterexample for C7: a complete `writeBundle` run with `verbose:
false` whose single file is successfully transformed from 10 bytes to 3
bytes (7 bytes saved), yet the run summary's `totalSavings` is `0` — the
accumulation `totalSavings += savings` sits inside the `if
(options.verbose)` block, so the summary does NOT hold the total bytes
saved independently of the verbose flag. -/
theorem C7_savings_not_recorded_without_verbose :
    (writeBundleT cfgReactT (fun _ _ => .ok ⟨some "abc"⟩) ["proj"]
        (.ok ["a.js"]) ⟨some "dist"⟩ fsTenByteT).toOption.map
        (fun r => (r.summary.minifiedCount, r.summary.totalSavings, r.outcomes))
      = some (1, 0, [("a.js", .success 10 3)]) ∧
    (10 : Int) - 3 ≠ 0 := by
  refine ⟨by decide, by decide⟩
